import Mathlib

/-!
Verification of the Spur chat backend's message-processing pipeline.

This file shallowly embeds the orchestrator (`src/core/ChatOrchestrator.ts`),
the standard/RAG strategy (`src/strategies/StandardLLMStrategy.ts`) and the
save-side frame filter shared with `src/routes/chat.ts`.  External effectful
calls (OpenAI chat/embedding calls, Pinecone vector queries, the history
store) are modelled as oracle values supplied through environment records;
each TypeScript function's own control flow — including its try/catch
structure — is translated faithfully.  Async generators become functions
producing the full list of yielded frames, together with the information a
caller can observe (whether the call raised, which messages were persisted,
which vector queries were issued).
-/

namespace Spur

/-- The fields of a thrown JS error that the strategy's error handling
inspects: `error.name`, `error.message`, `error.status`, `error.code`. -/
structure ErrInfo where
  name : String
  message : String
  status : Option Nat
  code : Option String
deriving DecidableEq

/-! ## Streaming protocol frames (strings yielded by the generators) -/

/-- `"[DONE]\n\n"` terminal marker frame. -/
def doneFrame : String := "[DONE]\n\n"

/-- `"[ERROR]\n\n"` error marker frame. -/
def errorFrame : String := "[ERROR]\n\n"

/-- `"[CALL_TO]\n\n"` start marker frame. -/
def callToFrame : String := "[CALL_TO]\n\n"

/-- A data frame: `data: <payload>\n\n`. -/
def dataFrame (s : String) : String := "data: " ++ s ++ "\n\n"

/-- The strategy-name frame `data: STANDARD_STRATEGY\n\n` emitted right after
the start marker. -/
def strategyNameFrame : String := dataFrame ("STANDARD_STRATEGY")

/-- The left-brace character (written via its code point). -/
def lbrace : Char := Char.ofNat 123

/-- The right-brace character (written via its code point). -/
def rbrace : Char := Char.ofNat 125

/-- `JSON.stringify({ message: m })` for the fixed error messages used by the
code (none of which needs escaping). -/
def jsonMessage (m : String) : String :=
  String.singleton lbrace ++ "\"message\":\"" ++ m ++ "\"" ++ String.singleton rbrace

/-! ## Error-category messages (StandardLLMStrategy.generateResponse, catch) -/

/-- User-facing message for provider status 429. -/
def rateLimitMessage : String := "Rate limit exceeded. Please wait and try again."

/-- User-facing message for provider status 401. -/
def invalidKeyMessage : String := "Invalid API key. Please check your configuration."

/-- User-facing message for `error.code` ECONNRESET / ETIMEDOUT. -/
def timeoutMessage : String := "Request timed out. Please try again."

/-- Default user-facing failure message. -/
def genericFailureMessage : String := "Failed to generate response. Please try again."

/-- The message-selection ladder of the strategy's outer catch:
`429 → rate limit`, `401 → invalid key`, `ECONNRESET/ETIMEDOUT → timeout`,
otherwise the generic message. -/
def errorMessageFor (e : ErrInfo) : String :=
  if e.status = some 429 then rateLimitMessage
  else if e.status = some 401 then invalidKeyMessage
  else if e.code = some ("ECONNRESET") ∨ e.code = some ("ETIMEDOUT") then timeoutMessage
  else genericFailureMessage

/-- The inner catch around the stream iteration: an error named `AbortError`
(the 30-second abort timer firing) is re-thrown as
`new Error("Request timed out")` — a plain `Error` carrying neither a
`status` nor a `code` field.  Any other error is re-thrown unchanged. -/
def abortTransform (e : ErrInfo) : ErrInfo :=
  if e.name = "AbortError" then
    { name := "Error", message := "Request timed out", status := none, code := none }
  else e

/-- The in-band terminal error frame sequence the strategy yields from its
outer catch: `[ERROR]`, an error payload data frame, `[DONE]`. -/
def errorFrames (e : ErrInfo) : List String :=
  [errorFrame, dataFrame (jsonMessage (errorMessageFor e)), doneFrame]

/-- The data frames produced by the stream loop: one `data:` frame per chunk
whose `choices[0]?.delta?.content` is present and truthy (non-empty). -/
def streamFrames (chunks : List (Option String)) : List String :=
  chunks.filterMap (fun c =>
    match c with
    | none => none
    | some s => if s = "" then none else some (dataFrame s))

/-! ## Card detection (StandardLLMStrategy.detectCard) -/

/-- The fields of the JSON object the detection LLM is asked to return
(falsy fields — null, missing or empty — are modelled as `none`, matching
the `detected.cardName || undefined` normalisation). -/
structure DetectedInfo where
  cardName : Option String
  cardSlug : Option String
  chunkType : Option String
deriving DecidableEq

/-- Oracle for one `detectCard` run, at the granularity of its external
calls: the auxiliary LLM call (or the `JSON.parse`) threw; the reply had no
content; the reply contained no JSON object; or a JSON object was parsed. -/
inductive DetectEnv where
  | fail
  | noContent
  | noJson
  | parsed (d : DetectedInfo)
deriving DecidableEq

/-- `StandardLLMStrategy.detectCard`: every failure path is caught locally
and returns `null`; an all-null parse also returns `null`. -/
def detectCard : DetectEnv → Option DetectedInfo
  | .fail => none
  | .noContent => none
  | .noJson => none
  | .parsed d =>
      if d.cardName = none ∧ d.cardSlug = none ∧ d.chunkType = none then none
      else some d

/-! ## Vector retrieval (fetchContextPerType / fetchContextBroad) -/

/-- One Pinecone match `{id, score, metadata}` with the metadata fields the
code reads.  Missing / empty (falsy) metadata fields are `none`.  Scores are
modelled as rationals: only their ordering matters to the code. -/
structure VMatch where
  id : String
  score : ℚ
  card_name : Option String
  card_slug : Option String
  chunk_type : Option String
  source_type : Option String
  url : Option String
  content : Option String
deriving DecidableEq

/-- A record of one Pinecone `query` call: the `card_slug` / `chunk_type`
filter values (both `none` for the unfiltered broad query) and `topK`. -/
structure VQuery where
  slugFilter : Option String
  typeFilter : Option String
  topK : Nat
deriving DecidableEq

/-- `metadata.x || "N/A"`: JS renders falsy (missing or empty) metadata as
the literal `"N/A"`. -/
def optStr : Option String → String
  | none => "N/A"
  | some s => if s = "" then "N/A" else s

/-- Standard context-chunk formatting (used for non-`important_links` chunks
in per-type retrieval, and for all chunks in broad retrieval). -/
def formatChunk (m : VMatch) : String :=
  "\nChunk ID: " ++ m.id ++
  "\nScore: " ++ toString m.score ++
  "\nCard Name: " ++ optStr m.card_name ++
  "\nCard Slug: " ++ optStr m.card_slug ++
  "\nChunk Type: " ++ optStr m.chunk_type ++
  "\nSource Type: " ++ optStr m.source_type ++
  "\nURL: " ++ optStr m.url ++
  "\nContent: " ++ optStr m.content ++
  "\n---\n"

/-- Special formatting for `important_links` chunks (`metadata.content || ""`
is foregrounded under a links heading). -/
def formatLinksChunk (m : VMatch) : String :=
  "\nChunk ID: " ++ m.id ++
  "\nScore: " ++ toString m.score ++
  "\nCard Name: " ++ optStr m.card_name ++
  "\nCard Slug: " ++ optStr m.card_slug ++
  "\nChunk Type: important_links" ++
  "\nSource Type: " ++ optStr m.source_type ++
  "\n\nImportant Links and Documents:\n" ++ m.content.getD ("") ++
  "\n---\n"

/-- Per-type context formatting: `important_links` chunks get the special
block, all others the standard one (`metadata.chunk_type === "important_links"`). -/
def formatMatch (m : VMatch) : String :=
  if m.chunk_type = some ("important_links") then formatLinksChunk m else formatChunk m

/-- The trailing `Additional Relevant URLs` block appended when any links
were collected. -/
def linksBlock (links : List String) : String :=
  "\nAdditional Relevant URLs:\n" ++ String.intercalate ("\n") links ++ "\n---\n"

/-- Boolean character-list prefix test (JS `String.prototype.startsWith` and
the prefix step of `String.prototype.replace` with a string pattern). -/
def charsPre : List Char → List Char → Bool
  | [], _ => true
  | _ :: _, [] => false
  | a :: as, b :: bs => (a == b) && charsPre as bs

/-- Substring test on character lists (JS `String.prototype.includes`). -/
def hasInfixChars (pat : List Char) : List Char → Bool
  | [] => pat.isEmpty
  | c :: rest => charsPre pat (c :: rest) || hasInfixChars pat rest

/-- JS `needle ∈ haystack` on strings. -/
def strIncludes (s pat : String) : Bool := hasInfixChars pat.data s.data

/-- ASCII lower-casing (the keyword list is pure ASCII, so this coincides
with JS `toLowerCase` on every relevant input). -/
def toLowerStr (s : String) : String := ⟨s.data.map Char.toLower⟩

/-- The fixed keyword list of `needsImportantLinks`. -/
def linksKeywords : List String :=
  ["kfs", "key facts statement", "fees", "charges", "terms", "conditions",
   "pdf", "document", "full details", "link", "where can i find", "download",
   "statement", "agreement"]

/-- `StandardLLMStrategy.needsImportantLinks`: does the lower-cased query
contain any links keyword? -/
def needsImportantLinks (query : String) : Bool :=
  linksKeywords.any (fun keyword => strIncludes (toLowerStr query) keyword)

/-- The chunk types queried per-type: the fixed base three, plus
`important_links` when the query mentions link-related keywords. -/
def chunkTypesFor (query : String) : List String :=
  ["card_info", "benefits_list", "card_benefits_detail"] ++
    (if needsImportantLinks query then [("important_links")] else [])

/-- Oracle for one `fetchContextPerType` run: the embedding call's outcome
and each per-chunk-type Pinecone query's outcome (each query is wrapped in
its own try/catch in the code). -/
structure PerTypeEnv where
  embed : Option ErrInfo
  cardInfo : Except ErrInfo (List VMatch)
  benefitsList : Except ErrInfo (List VMatch)
  benefitsDetail : Except ErrInfo (List VMatch)
  importantLinks : Except ErrInfo (List VMatch)

/-- The oracle outcome for the per-type query on chunk type `t`. -/
def perTypeLookup (env : PerTypeEnv) (t : String) : Except ErrInfo (List VMatch) :=
  if t = "card_info" then env.cardInfo
  else if t = "benefits_list" then env.benefitsList
  else if t = "card_benefits_detail" then env.benefitsDetail
  else env.importantLinks

/-- Add a match's `metadata.url` (when present) to the insertion-ordered
link set (`allLinks` is a JS `Set`). -/
def insertUrl (acc : List String) (u : Option String) : List String :=
  match u with
  | none => acc
  | some url => if acc.contains url then acc else acc ++ [url]

/-- Collect the urls of a batch of matches into the link set. -/
def collectLinks (ms : List VMatch) (acc : List String) : List String :=
  ms.foldl (fun a m => insertUrl a m.url) acc

/-- The per-type query loop: for each chunk type in order, a failed query is
logged and contributes nothing, a successful one appends its matches to
`allMatches` and its urls to `allLinks`. -/
def perTypeGather (env : PerTypeEnv) (types : List String) :
    List VMatch × List String :=
  types.foldl
    (fun (acc : List VMatch × List String) t =>
      match perTypeLookup env t with
      | .ok ms => (acc.1 ++ ms, collectLinks ms acc.2)
      | .error _ => acc)
    ([], [])

/-- Deduplication by `match.id` keeping the first occurrence (the `seenIds`
set of the code, threaded explicitly). -/
def dedupByIdAux (seen : List String) : List VMatch → List VMatch
  | [] => []
  | m :: rest =>
      if seen.contains m.id then dedupByIdAux seen rest
      else m :: dedupByIdAux (seen ++ [m.id]) rest

/-- `allMatches.filter` with the `seenIds` set, starting empty. -/
def dedupById (ms : List VMatch) : List VMatch := dedupByIdAux [] ms

/-- Stable insertion of a match into a score-descending list; together with
`sortByScoreDesc` this computes exactly what the stable JS
`uniqueMatches.sort((a, b) => b.score - a.score)` computes. -/
def insertByScore (m : VMatch) : List VMatch → List VMatch
  | [] => [m]
  | x :: xs => if x.score ≤ m.score then m :: x :: xs else x :: insertByScore m xs

/-- Stable sort by similarity score descending. -/
def sortByScoreDesc : List VMatch → List VMatch
  | [] => []
  | m :: rest => insertByScore m (sortByScoreDesc rest)

/-- Result of a retrieval helper: the assembled context, the match count and
the collected links, plus an instrumentation trace of the Pinecone queries
the run issued. -/
structure RetrievalOutput where
  context : String
  matchCount : Nat
  links : List String
  queries : List VQuery
deriving DecidableEq

/-- `StandardLLMStrategy.fetchContextPerType`: embed once; query each chunk
type (filter `card_slug = slug AND chunk_type = t`, `topK = 1`); gather,
dedup by id, sort by score descending, format, and append the links block.
Its outer catch turns an embedding failure into
`{context: "", matchCount: 0, links: []}` (no query issued). -/
def fetchContextPerType (env : PerTypeEnv) (query cardSlug : String) :
    RetrievalOutput :=
  match env.embed with
  | some _ => { context := "", matchCount := 0, links := [], queries := [] }
  | none =>
      let types := chunkTypesFor query
      let issued := types.map (fun t =>
        { slugFilter := some cardSlug, typeFilter := some t, topK := 1 : VQuery })
      let gathered := perTypeGather env types
      let uniqueMatches := sortByScoreDesc (dedupById gathered.1)
      let blocks := uniqueMatches.map formatMatch ++
        (if gathered.2.isEmpty then [] else [linksBlock gathered.2])
      { context := String.intercalate ("\n") blocks,
        matchCount := uniqueMatches.length,
        links := gathered.2,
        queries := issued }

/-- Oracle for one `fetchContextBroad` run: embedding outcome and the single
unfiltered query's outcome. -/
structure BroadEnv where
  embed : Option ErrInfo
  result : Except ErrInfo (List VMatch)

/-- `StandardLLMStrategy.fetchContextBroad`: embed, then one unfiltered
query; all matches get the standard block format.  Its catch turns any
failure into `{context: "", matchCount: 0}`; the query only counts as issued
when the embedding succeeded. -/
def fetchContextBroad (env : BroadEnv) (topK : Nat) : RetrievalOutput :=
  match env.embed with
  | some _ => { context := "", matchCount := 0, links := [], queries := [] }
  | none =>
      let issued : List VQuery := [{ slugFilter := none, typeFilter := none, topK := topK }]
      match env.result with
      | .error _ => { context := "", matchCount := 0, links := [], queries := issued }
      | .ok ms =>
          { context := String.intercalate ("\n") (ms.map formatChunk),
            matchCount := ms.length,
            links := [],
            queries := issued }

/-! ## The strategy generator (StandardLLMStrategy.generateResponse) -/

/-- Abbreviated stand-in for the long fixed persona-prompt constant of the
strategy file.  No claim inspects its text, only how the retrieved context
is appended to it, so the (300-line) prompt body is not reproduced. -/
def SYSTEM_PROMPT : String :=
  "You are a helpful chatbot for Emirates NBD that specializes in answering questions about the bank's credit cards."

/-- `SYSTEM_PROMPT + "\n\nRetrieved Context:\n" + context`. -/
def systemPromptWithContext (context : String) : String :=
  SYSTEM_PROMPT ++ "\n\nRetrieved Context:\n" ++ context

/-- Oracle for one full `generateResponse` run: the detection, per-type and
broad retrieval oracles, the outcome of the `chat.completions.create` call,
the stream's content chunks and the optional error terminating the stream
iteration. -/
structure StratEnv where
  detect : DetectEnv
  perType : PerTypeEnv
  broad : BroadEnv
  createErr : Option ErrInfo
  chunks : List (Option String)
  streamErr : Option ErrInfo

/-- The `detected && detected.cardSlug` guard of STEP 2: the slug when a
card was detected and carries one, otherwise `none`. -/
def slugOf (env : DetectEnv) : Option String :=
  match detectCard env with
  | some d => d.cardSlug
  | none => none

/-- Context / match count / query trace of STEPs 1–2c of `generateResponse`:
per-type retrieval for a detected slug, falling back to the broad top-10
query when it yields zero matches; the broad top-10 query directly when no
slug was detected. -/
def retrieveContext (env : StratEnv) (query : String) : RetrievalOutput :=
  match slugOf env.detect with
  | some slug =>
      let r := fetchContextPerType env.perType query slug
      if r.matchCount = 0 then
        let b := fetchContextBroad env.broad 10
        { context := b.context, matchCount := b.matchCount, links := [],
          queries := r.queries ++ b.queries }
      else r
  | none =>
      fetchContextBroad env.broad 10

/-- Everything one `generateResponse` run produces that the rest of the
system can observe: the yielded frames, the assembled system prompt and the
Pinecone query trace.  The generator itself never raises: its outer
try/catch converts every failure into the in-band `[ERROR]` sequence. -/
structure StratOutput where
  frames : List String
  prompt : String
  queries : List VQuery
deriving DecidableEq

/-- `StandardLLMStrategy.generateResponse`: start marker pair; retrieval
(which cannot raise); the model stream with one data frame per non-empty
content chunk; `[DONE]` on clean completion.  A failing create call, or a
stream error (with `AbortError` first re-thrown as
`Error("Request timed out")`), falls to the outer catch which yields the
`[ERROR]` / payload / `[DONE]` triple instead. -/
def generateResponse (env : StratEnv) (userQuery : String) : StratOutput :=
  let r := retrieveContext env userQuery
  let frames :=
    [callToFrame, strategyNameFrame] ++
      (match env.createErr with
       | some e => errorFrames e
       | none =>
           streamFrames env.chunks ++
             (match env.streamErr with
              | some e => errorFrames (abortTransform e)
              | none => [doneFrame]))
  { frames := frames,
    prompt := systemPromptWithContext r.context,
    queries := r.queries }

/-! ## Save-side frame filtering (ChatOrchestrator / routes/chat.ts) -/

/-- Remove the first occurrence of `pat` from a character list (JS
`String.prototype.replace(pat, "")` with a string pattern). -/
def replaceFirstAux (pat : List Char) : List Char → List Char
  | [] => []
  | c :: rest =>
      if charsPre pat (c :: rest) then (c :: rest).drop pat.length
      else c :: replaceFirstAux pat rest

/-- JS `s.replace(pat, "")`. -/
def replaceFirst (s pat : String) : String := ⟨replaceFirstAux pat.data s.data⟩

/-- `chunk.replace("data: ", "").replace("\n\n", "")`. -/
def extractContent (chunk : String) : String :=
  replaceFirst (replaceFirst chunk ("data: ")) ("\n\n")

/-- `content.includes("{")`. -/
def containsLBrace (s : String) : Bool := s.data.contains lbrace

/-- The save filter applied to an extracted payload: drop it when it starts
with `[`, contains `{`, or equals a strategy-name token. -/
def keepContent (content : String) : Bool :=
  !(charsPre ("[").data content.data) &&
  !(containsLBrace content) &&
  content ≠ "STANDARD_STRATEGY" &&
  content ≠ "RAG_STRATEGY" &&
  content ≠ "AGENT_STRATEGY"

/-- One step of the accumulation loop: frames with the `data: ` prefix have
their payload extracted and, when it passes the save filter, appended. -/
def accumStep (acc : String) (chunk : String) : String :=
  if charsPre ("data: ").data chunk.data then
    let content := extractContent chunk
    if keepContent content then acc ++ content else acc
  else acc

/-- The `fullResponse` accumulated over a frame sequence — identical code in
`ChatOrchestrator.processMessage` and the non-streaming branch of
`routes/chat.ts`. -/
def accumulate (frames : List String) : String := frames.foldl accumStep ("")

/-! ## The orchestrator (ChatOrchestrator.processMessage / generateTitle) -/

/-- A history-store message: sender role and text. -/
structure Msg where
  sender : String
  content : String
deriving DecidableEq

/-- Oracle for one `processMessage` run: outcomes of the user-message
append, the history load, the detached title generation (LLM reply content,
already trimmed, and whether the title update write fails), the strategy
construction (the Pinecone client constructor rethrows on failure), the
strategy's own oracle, and the assistant-message append. -/
structure OrchEnv where
  addUserFails : Bool
  historyResult : Except ErrInfo (List Msg)
  titleResult : Except ErrInfo (Option String)
  updateTitleFails : Bool
  constructFails : Bool
  strat : StratEnv
  addAiFails : Bool

/-- Everything one `processMessage` run produces that its caller or the
stores can observe: the yielded frames, whether the generator raised, the
persisted user / ai message texts, whether title generation was triggered,
and the title written (if any). -/
structure OrchResult where
  frames : List String
  raised : Bool
  savedUser : Option String
  savedAi : Option String
  titleRequested : Bool
  titleUpdated : Option String
deriving DecidableEq

/-- `ChatOrchestrator.generateTitle`: the title written by the detached
task, `none` when the LLM call failed, returned no (truthy) content, or the
`updateTitle` write failed — every failure is caught and only logged. -/
def generateTitle (titleResult : Except ErrInfo (Option String))
    (updateTitleFails : Bool) : Option String :=
  match titleResult with
  | .error _ => none
  | .ok none => none
  | .ok (some t) =>
      if t = "" then none
      else if updateTitleFails then none
      else some t

/-- `ChatOrchestrator.processMessage`.  Step 1: append the user message
(failure raises before anything is yielded).  Step 2: load memory (failure
raises before anything is yielded).  Title generation fires exactly when the
loaded memory has length 1 and is detached — it contributes nothing to
frames or message persistence.  Steps 3–4: construct the strategy (a
constructor failure raises before anything is yielded).  The strategy's
frames are forwarded verbatim while `fullResponse` accumulates; the
orchestrator's own catch is unreachable because `generateResponse` is total
(its internal catch already yields in-band error frames for every failure).
Step 5: a non-empty `fullResponse` is appended as the `ai` message — this
append sits outside the try/catch, so its failure raises after every frame
(including the final `[DONE]`) has already been yielded. -/
def processMessage (message : String) (env : OrchEnv) : OrchResult :=
  if env.addUserFails then
    { frames := [], raised := true, savedUser := none, savedAi := none,
      titleRequested := false, titleUpdated := none }
  else
    match env.historyResult with
    | .error _ =>
        { frames := [], raised := true, savedUser := some message,
          savedAi := none, titleRequested := false, titleUpdated := none }
    | .ok memory =>
        let titleReq := memory.length == 1
        let titleUpd :=
          if titleReq then generateTitle env.titleResult env.updateTitleFails
          else none
        if env.constructFails then
          { frames := [], raised := true, savedUser := some message,
            savedAi := none, titleRequested := titleReq, titleUpdated := titleUpd }
        else
          let out := generateResponse env.strat message
          let full := accumulate out.frames
          if full = "" then
            { frames := out.frames, raised := false, savedUser := some message,
              savedAi := none, titleRequested := titleReq, titleUpdated := titleUpd }
          else if env.addAiFails then
            { frames := out.frames, raised := true, savedUser := some message,
              savedAi := none, titleRequested := titleReq, titleUpdated := titleUpd }
          else
            { frames := out.frames, raised := false, savedUser := some message,
              savedAi := some full, titleRequested := titleReq, titleUpdated := titleUpd }

/-! ## Derived notions used by the statements -/

/-- Well-formedness of an emitted frame sequence: it ends in `[DONE]`,
contains exactly one `[DONE]` and at most one `[ERROR]`, and an `[ERROR]`
is immediately followed by its error-payload data frame and then the final
`[DONE]` (no other frame intervenes). -/
def FramesWellFormed (fs : List String) : Prop :=
  fs.getLast? = some doneFrame ∧
  fs.count doneFrame = 1 ∧
  fs.count errorFrame ≤ 1 ∧
  (errorFrame ∈ fs →
    ∃ pre m, fs = pre ++ [errorFrame, dataFrame (jsonMessage m), doneFrame])

/-- The non-empty content chunks of a model stream, in arrival order. -/
def nonEmptyContents (chunks : List (Option String)) : List String :=
  (chunks.filterMap id).filter (fun s => s != "")

/-- Is a recorded Pinecone query unfiltered (no `card_slug` and no
`chunk_type` condition)? -/
def isUnfiltered (q : VQuery) : Bool := q.slugFilter.isNone && q.typeFilter.isNone

/-! ## Concrete sample data for witnesses and counterexamples -/

/-- A generic thrown error with no provider status or code. -/
def sampleErr : ErrInfo :=
  { name := "Error", message := "boom", status := none, code := none }

/-- A provider rate-limit error (`status = 429`) as raised mid-stream. -/
def rateLimitErr : ErrInfo :=
  { name := "APIError", message := "429 rate limit", status := some 429, code := none }

/-- The error raised when the 30-second abort controller fires during the
stream iteration: its `name` is `AbortError`; it has no status or code. -/
def abortErr : ErrInfo :=
  { name := "AbortError", message := "Request was aborted.", status := none, code := none }

/-- A retrieval oracle in which every external retrieval call fails. -/
def failedPerType : PerTypeEnv :=
  { embed := some sampleErr, cardInfo := Except.error sampleErr,
    benefitsList := Except.error sampleErr,
    benefitsDetail := Except.error sampleErr,
    importantLinks := Except.error sampleErr }

/-- A broad-retrieval oracle whose embedding call fails. -/
def failedBroad : BroadEnv := { embed := some sampleErr, result := Except.error sampleErr }

/-- A strategy oracle with failing retrieval, a successful create call, the
given content chunks and the given optional mid-stream error. -/
def mkStrat (chunks : List (Option String)) (streamErr : Option ErrInfo) : StratEnv :=
  { detect := DetectEnv.fail, perType := failedPerType, broad := failedBroad,
    createErr := none, chunks := chunks, streamErr := streamErr }

/-- An orchestrator oracle in which persistence of the user message, the
history load (one prior message) and strategy construction succeed. -/
def mkOrch (strat : StratEnv) (addAiFails : Bool) : OrchEnv :=
  { addUserFails := false,
    historyResult := Except.ok [{ sender := "user", content := "hi" }],
    titleResult := Except.ok none, updateTitleFails := false,
    constructFails := false, strat := strat, addAiFails := addAiFails }

/-- A sample broad-query match. -/
def sampleMatch : VMatch :=
  { id := "b1", score := 1, card_name := none, card_slug := none,
    chunk_type := none, source_type := none, url := none,
    content := some ("hello world") }

/-- A per-type-retrieval oracle whose embedding succeeds and whose queries
all succeed with zero matches. -/
def emptyPerType : PerTypeEnv :=
  { embed := none, cardInfo := Except.ok [], benefitsList := Except.ok [],
    benefitsDetail := Except.ok [], importantLinks := Except.ok [] }

/-- A strategy oracle that detects the slug `x-card`, finds no targeted
matches, and whose broad query returns one match. -/
def fallbackStrat : StratEnv :=
  { detect := DetectEnv.parsed
      { cardName := some ("X Card"), cardSlug := some ("x-card"), chunkType := none },
    perType := emptyPerType,
    broad := { embed := none, result := Except.ok [sampleMatch] },
    createErr := none, chunks := [], streamErr := none }

/-- A `card_info` match with chunk id `c1` (higher score). -/
def dupMatchHigh : VMatch :=
  { id := "c1", score := 2, card_name := none, card_slug := none,
    chunk_type := some ("card_info"), source_type := none,
    url := some ("https://a.example"), content := some ("first copy") }

/-- A `benefits_list` match sharing chunk id `c1` (lower score) and the
same URL. -/
def dupMatchLow : VMatch :=
  { id := "c1", score := 1, card_name := none, card_slug := none,
    chunk_type := some ("benefits_list"), source_type := none,
    url := some ("https://a.example"), content := some ("second copy") }

/-- A per-type-retrieval oracle in which two categories return the same
chunk id. -/
def dupPerType : PerTypeEnv :=
  { embed := none, cardInfo := Except.ok [dupMatchHigh],
    benefitsList := Except.ok [dupMatchLow],
    benefitsDetail := Except.ok [], importantLinks := Except.ok [] }

/-- A model-output chunk that is a small JSON object (contains braces). -/
def bracedChunk : String :=
  String.singleton lbrace ++ "\"a\":1" ++ String.singleton rbrace

/-! ## Basic string/frame lemmas -/

theorem dataFrame_ne_done (s : String) : dataFrame s ≠ doneFrame := by
  intro h
  have h2 : (some 'd' : Option Char) = some '[' :=
    congrArg (fun t => t.data.head?) h
  exact absurd h2 (by decide)

theorem dataFrame_ne_error (s : String) : dataFrame s ≠ errorFrame := by
  intro h
  have h2 : (some 'd' : Option Char) = some '[' :=
    congrArg (fun t => t.data.head?) h
  exact absurd h2 (by decide)

theorem dataFrame_beq_done (s : String) : (dataFrame s == doneFrame) = false :=
  beq_eq_false_iff_ne.mpr (dataFrame_ne_done s)

theorem dataFrame_beq_error (s : String) : (dataFrame s == errorFrame) = false :=
  beq_eq_false_iff_ne.mpr (dataFrame_ne_error s)

theorem not_done_mem_streamFrames (cs : List (Option String)) :
    doneFrame ∉ streamFrames cs := by
  intro h
  rw [streamFrames, List.mem_filterMap] at h
  obtain ⟨c, _, hc⟩ := h
  cases c with
  | none => simp at hc
  | some s =>
      by_cases hs : s = ""
      · simp [hs] at hc
      · simp only [if_neg hs, Option.some.injEq] at hc
        exact dataFrame_ne_done s hc

theorem not_error_mem_streamFrames (cs : List (Option String)) :
    errorFrame ∉ streamFrames cs := by
  intro h
  rw [streamFrames, List.mem_filterMap] at h
  obtain ⟨c, _, hc⟩ := h
  cases c with
  | none => simp at hc
  | some s =>
      by_cases hs : s = ""
      · simp [hs] at hc
      · simp only [if_neg hs, Option.some.injEq] at hc
        exact dataFrame_ne_error s hc

theorem count_done_streamFrames (cs : List (Option String)) :
    (streamFrames cs).count doneFrame = 0 :=
  List.count_eq_zero.mpr (not_done_mem_streamFrames cs)

theorem count_error_streamFrames (cs : List (Option String)) :
    (streamFrames cs).count errorFrame = 0 :=
  List.count_eq_zero.mpr (not_error_mem_streamFrames cs)

/-! ## Well-formedness of the strategy's frame output -/

theorem count_done_errorFrames (e : ErrInfo) :
    (errorFrames e).count doneFrame = 1 := by
  simp [errorFrames, List.count_cons, dataFrame_beq_done, doneFrame, errorFrame]
  exact dataFrame_ne_done _

theorem count_error_errorFrames (e : ErrInfo) :
    (errorFrames e).count errorFrame = 1 := by
  simp [errorFrames, List.count_cons, dataFrame_beq_error, doneFrame, errorFrame]
  exact dataFrame_ne_error _

theorem wellFormed_append_error (pre : List String) (e : ErrInfo)
    (hd : doneFrame ∉ pre) (he : errorFrame ∉ pre) :
    FramesWellFormed (pre ++ errorFrames e) := by
  refine ⟨?_, ?_, ?_, ?_⟩
  · have h : pre ++ errorFrames e =
        (pre ++ [errorFrame, dataFrame (jsonMessage (errorMessageFor e))]) ++ [doneFrame] := by
      simp [errorFrames]
    rw [h, List.getLast?_concat]
  · rw [List.count_append, List.count_eq_zero.mpr hd, count_done_errorFrames]
  · rw [List.count_append, List.count_eq_zero.mpr he, count_error_errorFrames]
  · intro _
    exact ⟨pre, errorMessageFor e, rfl⟩

theorem wellFormed_append_done (pre : List String)
    (hd : doneFrame ∉ pre) (he : errorFrame ∉ pre) :
    FramesWellFormed (pre ++ [doneFrame]) := by
  refine ⟨List.getLast?_concat _, ?_, ?_, ?_⟩
  · rw [List.count_append, List.count_eq_zero.mpr hd]
    simp
  · rw [List.count_append, List.count_eq_zero.mpr he]
    simp [doneFrame, errorFrame]
  · intro hmem
    rcases List.mem_append.mp hmem with h | h
    · exact absurd h he
    · simp only [List.mem_singleton] at h
      exact absurd h (by decide)

theorem not_done_mem_startPair : doneFrame ∉ [callToFrame, strategyNameFrame] := by
  decide

theorem not_error_mem_startPair : errorFrame ∉ [callToFrame, strategyNameFrame] := by
  decide

/-- The strategy generator always emits a well-formed frame sequence: its
internal try/catch converts every create/stream failure into the in-band
`[ERROR]` triple, and every run ends in exactly one `[DONE]`. -/
theorem generateResponse_wellFormed (env : StratEnv) (q : String) :
    FramesWellFormed (generateResponse env q).frames := by
  have hd : doneFrame ∉ [callToFrame, strategyNameFrame] ++ streamFrames env.chunks := by
    intro h
    rcases List.mem_append.mp h with h | h
    · exact not_done_mem_startPair h
    · exact not_done_mem_streamFrames _ h
  have he : errorFrame ∉ [callToFrame, strategyNameFrame] ++ streamFrames env.chunks := by
    intro h
    rcases List.mem_append.mp h with h | h
    · exact not_error_mem_startPair h
    · exact not_error_mem_streamFrames _ h
  cases hc : env.createErr with
  | some e =>
      simp only [generateResponse, hc]
      exact wellFormed_append_error _ e not_done_mem_startPair not_error_mem_startPair
  | none =>
      cases hs : env.streamErr with
      | some e =>
          simp only [generateResponse, hc, hs, ← List.append_assoc]
          exact wellFormed_append_error _ _ hd he
      | none =>
          simp only [generateResponse, hc, hs, ← List.append_assoc]
          exact wellFormed_append_done _ hd he

/-- In every run in which the user-message append, the history load and
strategy construction succeed, the frames forwarded by `processMessage` are
exactly the strategy's frames (even when the post-stream assistant save
fails and the call then raises). -/
theorem processMessage_frames_eq (message : String) (env : OrchEnv) (mem : List Msg)
    (h1 : env.addUserFails = false)
    (h2 : env.historyResult = Except.ok mem)
    (h3 : env.constructFails = false) :
    (processMessage message env).frames = (generateResponse env.strat message).frames := by
  rw [processMessage, h1, h2, h3]
  simp only [Bool.false_eq_true, if_false]
  split
  · rfl
  · split <;> rfl

/-- C1 is false as stated: with a clean one-chunk stream and a failing
assistant-message append, `processMessage` raises to its caller even though
it has already emitted its frames (a non-empty sequence ending in the
`[DONE]` marker) — contradicting "once processMessage has emitted its first
frame it never raises to the caller". -/
theorem c1_counterexample :
    (processMessage ("hello") (mkOrch (mkStrat [some ("Hi")] none) true)).raised = true ∧
    (processMessage ("hello") (mkOrch (mkStrat [some ("Hi")] none) true)).frames ≠ [] ∧
    (processMessage ("hello") (mkOrch (mkStrat [some ("Hi")] none) true)).frames.getLast?
      = some doneFrame := by
  refine ⟨by decide, by decide, by decide⟩

/-- C1 (amended): failures raised by the strategy's frame iteration are
converted to an in-band terminal frame sequence, so in every run of
`processMessage` in which the initial user-message append, the memory load
and the strategy construction succeed, the emitted frame sequence ends in
exactly one `[DONE]` marker, contains at most one `[ERROR]` marker, and an
`[ERROR]` is immediately followed by its error-payload data frame and the
final `[DONE]`.  (A memory-load failure raises with no frames emitted, and
a post-stream assistant-save failure raises to the caller after the full
frame sequence — already ending in `[DONE]` — has been emitted.) -/
theorem c1_frames_wellformed (message : String) (env : OrchEnv) (mem : List Msg)
    (h1 : env.addUserFails = false)
    (h2 : env.historyResult = Except.ok mem)
    (h3 : env.constructFails = false) :
    FramesWellFormed (processMessage message env).frames := by
  rw [processMessage_frames_eq message env mem h1 h2 h3]
  exact generateResponse_wellFormed env.strat message

/-- Witness for C1's amended theorem at a concrete run (clean stream, one
chunk, assistant save succeeding). -/
theorem c1_frames_wellformed_witness :
    FramesWellFormed (processMessage ("hello") (mkOrch (mkStrat [some ("Hi")] none) false)).frames :=
  c1_frames_wellformed ("hello") (mkOrch (mkStrat [some ("Hi")] none) false)
    [{ sender := "user", content := "hi" }] rfl rfl rfl

/-- In successful-persistence runs, the assistant message persisted is the
accumulated text exactly when that text is non-empty. -/
theorem processMessage_savedAi (message : String) (env : OrchEnv) (mem : List Msg)
    (h1 : env.addUserFails = false)
    (h2 : env.historyResult = Except.ok mem)
    (h3 : env.constructFails = false)
    (h4 : env.addAiFails = false) :
    (processMessage message env).savedAi =
      (if accumulate (processMessage message env).frames = "" then none
       else some (accumulate (processMessage message env).frames)) := by
  rw [processMessage, h1, h2, h3, h4]
  simp only [Bool.false_eq_true, if_false]
  split <;> rfl

/-- C2 is false as stated: a mid-stream rate-limit after the chunk "Hello"
ends the frame sequence with the fixed rate-limit `[ERROR]` payload and
`[DONE]`, yet an `ai` message containing the pre-failure text "Hello" IS
persisted (the strategy handles the error in-band, so the orchestrator's
loop completes normally and saves the non-empty accumulated text). -/
theorem c2_counterexample :
    (processMessage ("hi") (mkOrch (mkStrat [some ("Hello")] (some rateLimitErr)) false)).savedAi
      = some ("Hello") ∧
    (processMessage ("hi") (mkOrch (mkStrat [some ("Hello")] (some rateLimitErr)) false)).frames
      = [callToFrame, strategyNameFrame, dataFrame ("Hello"), errorFrame,
         dataFrame (jsonMessage rateLimitMessage), doneFrame] := by
  refine ⟨by decide, by decide⟩

/-- C2 (amended): if the model client raises a rate-limit condition
mid-stream, the emitted frame sequence ends with an `[ERROR]` frame whose
payload message equals the fixed rate-limit message, followed by `[DONE]`;
the `ai` message persisted for that turn is the text accumulated from the
pre-failure data frames — persisted exactly when that text is non-empty (so
no `ai` message is persisted only when the failure precedes any plain
content chunk). -/
theorem c2_rate_limit_mid_stream (message : String) (env : OrchEnv) (mem : List Msg)
    (e : ErrInfo)
    (h1 : env.addUserFails = false)
    (h2 : env.historyResult = Except.ok mem)
    (h3 : env.constructFails = false)
    (h4 : env.addAiFails = false)
    (h5 : env.strat.createErr = none)
    (h6 : env.strat.streamErr = some e)
    (h7 : e.status = some 429)
    (h8 : e.name ≠ "AbortError") :
    (∃ pre, (processMessage message env).frames =
        pre ++ [errorFrame, dataFrame (jsonMessage rateLimitMessage), doneFrame]) ∧
    (processMessage message env).savedAi =
      (if accumulate (processMessage message env).frames = "" then none
       else some (accumulate (processMessage message env).frames)) := by
  have hmsg : errorMessageFor e = rateLimitMessage := by
    rw [errorMessageFor, if_pos h7]
  have habort : abortTransform e = e := by
    rw [abortTransform, if_neg h8]
  have hframes : (processMessage message env).frames =
      ([callToFrame, strategyNameFrame] ++ streamFrames env.strat.chunks) ++ errorFrames e := by
    rw [processMessage_frames_eq message env mem h1 h2 h3]
    simp only [generateResponse, h5, h6, habort, List.append_assoc]
  refine ⟨⟨[callToFrame, strategyNameFrame] ++ streamFrames env.strat.chunks, ?_⟩, ?_⟩
  · rw [hframes, errorFrames, hmsg]
  · exact processMessage_savedAi message env mem h1 h2 h3 h4

/-- Witness for C2's amended theorem at a concrete mid-stream rate-limit
run (one pre-failure chunk "Hello"). -/
theorem c2_rate_limit_mid_stream_witness :
    (∃ pre, (processMessage ("hi") (mkOrch (mkStrat [some ("Hello")] (some rateLimitErr)) false)).frames =
        pre ++ [errorFrame, dataFrame (jsonMessage rateLimitMessage), doneFrame]) ∧
    (processMessage ("hi") (mkOrch (mkStrat [some ("Hello")] (some rateLimitErr)) false)).savedAi =
      (if accumulate (processMessage ("hi") (mkOrch (mkStrat [some ("Hello")] (some rateLimitErr)) false)).frames = ""
       then none
       else some (accumulate (processMessage ("hi") (mkOrch (mkStrat [some ("Hello")] (some rateLimitErr)) false)).frames)) :=
  c2_rate_limit_mid_stream ("hi") (mkOrch (mkStrat [some ("Hello")] (some rateLimitErr)) false)
    [{ sender := "user", content := "hi" }] rateLimitErr
    rfl rfl rfl rfl rfl rfl rfl (by decide)

/-- C3 (code bug): when the 30-second abort fires mid-stream (an error
named `AbortError`), the inner catch re-throws `Error("Request timed out")`,
which carries neither a `status` nor a `code`; the outer catch's message
ladder therefore falls through to the GENERIC failure message, not the
timeout-category message — the `[ERROR]` payload is
"Failed to generate response. Please try again." instead of
"Request timed out. Please try again.". -/
theorem c3_abort_yields_generic_message :
    (generateResponse (mkStrat [] (some abortErr)) ("q")).frames
      = [callToFrame, strategyNameFrame, errorFrame,
         dataFrame (jsonMessage genericFailureMessage), doneFrame] ∧
    errorMessageFor (abortTransform abortErr) = genericFailureMessage ∧
    genericFailureMessage ≠ timeoutMessage := by
  refine ⟨by decide, by decide, by decide⟩

/-- C4: if appending the user message fails, `processMessage` raises
synchronously, emits no frames, and persists nothing. -/
theorem c4_user_append_failure (message : String) (env : OrchEnv)
    (h : env.addUserFails = true) :
    processMessage message env =
      { frames := [], raised := true, savedUser := none, savedAi := none,
        titleRequested := false, titleUpdated := none } := by
  rw [processMessage, h]
  simp

/-- Witness for C4 at a concrete failing user-append run. -/
theorem c4_user_append_failure_witness :
    processMessage ("hello") { mkOrch (mkStrat [] none) false with addUserFails := true } =
      { frames := [], raised := true, savedUser := none, savedAi := none,
        titleRequested := false, titleUpdated := none } :=
  c4_user_append_failure ("hello") { mkOrch (mkStrat [] none) false with addUserFails := true } rfl

/-- `titleRequested` computed when append and load succeed. -/
theorem processMessage_titleReq (message : String) (env : OrchEnv) (mem : List Msg)
    (h1 : env.addUserFails = false)
    (h2 : env.historyResult = Except.ok mem) :
    (processMessage message env).titleRequested = (mem.length == 1) := by
  rw [processMessage, h1, h2]
  simp only [Bool.false_eq_true, if_false]
  split
  · rfl
  · split
    · rfl
    · split <;> rfl

/-- The observable outcome of a run (frames, raise, persisted messages) does
not depend on the detached title task's oracle. -/
theorem processMessage_title_independent (message : String) (env : OrchEnv)
    (tr : Except ErrInfo (Option String)) (uf : Bool) :
    (processMessage message { env with titleResult := tr, updateTitleFails := uf }).frames
        = (processMessage message env).frames ∧
    (processMessage message { env with titleResult := tr, updateTitleFails := uf }).raised
        = (processMessage message env).raised ∧
    (processMessage message { env with titleResult := tr, updateTitleFails := uf }).savedUser
        = (processMessage message env).savedUser ∧
    (processMessage message { env with titleResult := tr, updateTitleFails := uf }).savedAi
        = (processMessage message env).savedAi := by
  obtain ⟨au, hr, t0, u0, cf, st, aa⟩ := env
  refine ⟨?_, ?_, ?_, ?_⟩ <;>
    · cases au
      · cases hr with
        | error e => rfl
        | ok mem =>
            simp only [processMessage]
            split
            · rfl
            · split
              · rfl
              · split
                · rfl
                · split <;> rfl
      · rfl

/-- C7: title generation is triggered exactly when the loaded memory has
length 1, and its outcome (LLM failure, empty title, or a failing title
update) never alters the frames emitted, whether the call raises, or the
messages persisted — the title task only affects the (separately written)
conversation title. -/
theorem c7_title_detached (message : String) (env : OrchEnv)
    (tr1 tr2 : Except ErrInfo (Option String)) (uf1 uf2 : Bool) :
    ((processMessage message { env with titleResult := tr1, updateTitleFails := uf1 }).frames
      = (processMessage message { env with titleResult := tr2, updateTitleFails := uf2 }).frames) ∧
    ((processMessage message { env with titleResult := tr1, updateTitleFails := uf1 }).raised
      = (processMessage message { env with titleResult := tr2, updateTitleFails := uf2 }).raised) ∧
    ((processMessage message { env with titleResult := tr1, updateTitleFails := uf1 }).savedUser
      = (processMessage message { env with titleResult := tr2, updateTitleFails := uf2 }).savedUser) ∧
    ((processMessage message { env with titleResult := tr1, updateTitleFails := uf1 }).savedAi
      = (processMessage message { env with titleResult := tr2, updateTitleFails := uf2 }).savedAi) ∧
    ((processMessage message env).titleRequested = true ↔
      (env.addUserFails = false ∧
        ∃ mem, env.historyResult = Except.ok mem ∧ mem.length = 1)) := by
  obtain ⟨hf1, hr1, hu1, ha1⟩ := processMessage_title_independent message env tr1 uf1
  obtain ⟨hf2, hr2, hu2, ha2⟩ := processMessage_title_independent message env tr2 uf2
  refine ⟨hf1.trans hf2.symm, hr1.trans hr2.symm, hu1.trans hu2.symm, ha1.trans ha2.symm, ?_⟩
  cases hau : env.addUserFails with
  | true =>
      rw [processMessage, hau]
      simp
  | false =>
      cases hhr : env.historyResult with
      | error e =>
          rw [processMessage, hau, hhr]
          simp
      | ok mem =>
          rw [processMessage_titleReq message env mem hau hhr]
          simp

/-- The stream loop's data frames are exactly one `data:` frame per
non-empty content chunk, in arrival order. -/
theorem streamFrames_eq_map (cs : List (Option String)) :
    streamFrames cs = (nonEmptyContents cs).map dataFrame := by
  induction cs with
  | nil => rfl
  | cons c rest ih =>
      cases c with
      | none =>
          simp only [streamFrames, nonEmptyContents, List.filterMap_cons] at ih ⊢
          exact ih
      | some s =>
          by_cases hs : s = ""
          · simp only [streamFrames, nonEmptyContents, List.filterMap_cons, hs] at ih ⊢
            simpa using ih
          · simp only [streamFrames, nonEmptyContents, List.filterMap_cons, if_neg hs,
              id] at ih ⊢
            rw [List.filter_cons, if_pos (bne_iff_ne.mpr hs), List.map_cons, ih]

/-- C9: on a clean (non-error) run the strategy emits exactly the start
marker, the strategy-name data frame, one data frame per non-empty content
chunk in arrival order, and a single terminal `[DONE]`. -/
theorem c9_clean_run_frames (env : StratEnv) (q : String)
    (h1 : env.createErr = none) (h2 : env.streamErr = none) :
    (generateResponse env q).frames =
      [callToFrame, strategyNameFrame] ++
        (nonEmptyContents env.chunks).map dataFrame ++ [doneFrame] := by
  simp only [generateResponse, h1, h2, streamFrames_eq_map, List.append_assoc]

/-- Witness for C9 at a concrete clean run with an absent, an empty and two
non-empty content chunks. -/
theorem c9_clean_run_frames_witness :
    (generateResponse (mkStrat [some ("Hel"), none, some (""), some ("lo")] none) ("hi")).frames =
      [callToFrame, strategyNameFrame] ++
        (nonEmptyContents [some ("Hel"), none, some (""), some ("lo")]).map dataFrame ++
        [doneFrame] :=
  c9_clean_run_frames (mkStrat [some ("Hel"), none, some (""), some ("lo")] none) ("hi") rfl rfl

/-- With every lookup failing, the per-type gathering loop collects nothing. -/
theorem perTypeGather_all_error (env : PerTypeEnv) (e : ErrInfo)
    (h : ∀ t, perTypeLookup env t = Except.error e) (types : List String) :
    perTypeGather env types = ([], []) := by
  unfold perTypeGather
  induction types with
  | nil => rfl
  | cons t ts ih =>
      rw [List.foldl_cons, h t]
      exact ih

/-- C8: retrieval errors are recovered locally.  A failed classification
returns "no detection"; a failed embedding short-circuits per-type retrieval
to zero matches and empty context with no query issued; per-type runs whose
individual queries all fail yield zero matches and empty context; a failed
broad embedding or broad query yields zero matches and empty context; and
given a clean model stream no `[ERROR]` frame is emitted regardless of
retrieval outcomes. -/
theorem c8_retrieval_errors_recovered
    (q slug : String) (k : Nat) (pt1 pt2 : PerTypeEnv) (b1 b2 : BroadEnv)
    (se : StratEnv) (e1 e2 e3 e4 : ErrInfo)
    (hp1 : pt1.embed = some e1)
    (hp2e : pt2.embed = none)
    (hp2a : pt2.cardInfo = Except.error e2)
    (hp2b : pt2.benefitsList = Except.error e2)
    (hp2c : pt2.benefitsDetail = Except.error e2)
    (hp2d : pt2.importantLinks = Except.error e2)
    (hb1 : b1.embed = some e3)
    (hb2e : b2.embed = none)
    (hb2r : b2.result = Except.error e4)
    (hs1 : se.createErr = none)
    (hs2 : se.streamErr = none) :
    detectCard DetectEnv.fail = none ∧
    fetchContextPerType pt1 q slug =
      { context := "", matchCount := 0, links := [], queries := [] } ∧
    (fetchContextPerType pt2 q slug).context = "" ∧
    (fetchContextPerType pt2 q slug).matchCount = 0 ∧
    fetchContextBroad b1 k =
      { context := "", matchCount := 0, links := [], queries := [] } ∧
    (fetchContextBroad b2 k).context = "" ∧
    (fetchContextBroad b2 k).matchCount = 0 ∧
    errorFrame ∉ (generateResponse se q).frames := by
  have hlook : ∀ t, perTypeLookup pt2 t = Except.error e2 := by
    intro t
    unfold perTypeLookup
    split_ifs <;> first | exact hp2a | exact hp2b | exact hp2c | exact hp2d
  have hgather := perTypeGather_all_error pt2 e2 hlook (chunkTypesFor q)
  refine ⟨rfl, ?_, ?_, ?_, ?_, ?_, ?_, ?_⟩
  · simp only [fetchContextPerType, hp1]
  · simp only [fetchContextPerType, hp2e, hgather, dedupById, dedupByIdAux,
      sortByScoreDesc, List.map_nil, List.isEmpty_nil, if_true, List.nil_append]
    rfl
  · simp only [fetchContextPerType, hp2e, hgather, dedupById, dedupByIdAux,
      sortByScoreDesc, List.length_nil]
  · simp only [fetchContextBroad, hb1]
  · simp only [fetchContextBroad, hb2e, hb2r]
  · simp only [fetchContextBroad, hb2e, hb2r]
  · simp only [generateResponse, hs1, hs2]
    intro hmem
    rcases List.mem_append.mp hmem with h | h
    · exact not_error_mem_startPair h
    · rcases List.mem_append.mp h with h | h
      · exact not_error_mem_streamFrames _ h
      · simp only [List.mem_singleton] at h
        exact absurd h (by decide)

/-- Witness for C8 at concrete failing retrieval oracles and a clean
two-chunk stream. -/
theorem c8_retrieval_errors_recovered_witness :
    detectCard DetectEnv.fail = none ∧
    fetchContextPerType failedPerType ("hello") ("x-card") =
      { context := "", matchCount := 0, links := [], queries := [] } ∧
    (fetchContextPerType { failedPerType with embed := none } ("hello") ("x-card")).context = "" ∧
    (fetchContextPerType { failedPerType with embed := none } ("hello") ("x-card")).matchCount = 0 ∧
    fetchContextBroad failedBroad 10 =
      { context := "", matchCount := 0, links := [], queries := [] } ∧
    (fetchContextBroad { failedBroad with embed := none } 10).context = "" ∧
    (fetchContextBroad { failedBroad with embed := none } 10).matchCount = 0 ∧
    errorFrame ∉ (generateResponse (mkStrat [some ("Hi")] none) "hello").frames :=
  c8_retrieval_errors_recovered ("hello") ("x-card") 10 failedPerType
    { failedPerType with embed := none } failedBroad { failedBroad with embed := none }
    (mkStrat [some ("Hi")] none) sampleErr sampleErr sampleErr sampleErr
    rfl rfl rfl rfl rfl rfl rfl rfl rfl rfl rfl

/-- Every query issued by per-type retrieval is filtered (slug and chunk
type), so none of them is the unfiltered broad query. -/
theorem perType_queries_no_unfiltered (env : PerTypeEnv) (query slug : String) :
    (fetchContextPerType env query slug).queries.filter isUnfiltered = [] := by
  cases h : env.embed with
  | some e => simp [fetchContextPerType, h]
  | none =>
      simp only [fetchContextPerType, h]
      rw [List.filter_eq_nil_iff]
      intro q hq
      obtain ⟨t, _, hqe⟩ := List.mem_map.mp hq
      rw [← hqe]
      simp [isUnfiltered]

/-- C5: whenever the fallback condition holds — a slug was detected but the
targeted per-category queries together returned zero matches, or no slug was
detected at all — and the broad path's embedding and query succeed, exactly
one unfiltered nearest-neighbor query with `topK = 10` is issued, and its
formatted results populate the context used for prompt assembly. -/
theorem c5_fallback_broad (env : StratEnv) (query : String) (ms : List VMatch)
    (h1 : slugOf env.detect = none ∨
          ∃ slug, slugOf env.detect = some slug ∧
            (fetchContextPerType env.perType query slug).matchCount = 0)
    (h2 : env.broad.embed = none)
    (h3 : env.broad.result = Except.ok ms) :
    (retrieveContext env query).context =
      String.intercalate ("\n") (ms.map formatChunk) ∧
    (retrieveContext env query).queries.filter isUnfiltered =
      [{ slugFilter := none, typeFilter := none, topK := 10 }] ∧
    (generateResponse env query).prompt =
      systemPromptWithContext (String.intercalate ("\n") (ms.map formatChunk)) := by
  have hbroad : fetchContextBroad env.broad 10 =
      { context := String.intercalate ("\n") (ms.map formatChunk),
        matchCount := ms.length, links := [],
        queries := [{ slugFilter := none, typeFilter := none, topK := 10 }] } := by
    simp [fetchContextBroad, h2, h3]
  have hprompt : (generateResponse env query).prompt =
      systemPromptWithContext (retrieveContext env query).context := rfl
  rcases h1 with h1 | ⟨slug, hslug, hmc⟩
  · have hr : retrieveContext env query = fetchContextBroad env.broad 10 := by
      rw [retrieveContext, h1]
    have hctx : (retrieveContext env query).context =
        String.intercalate ("\n") (ms.map formatChunk) := by
      rw [hr, hbroad]
    refine ⟨hctx, ?_, by rw [hprompt, hctx]⟩
    rw [hr, hbroad]
    simp [isUnfiltered]
  · have hr : retrieveContext env query =
        { context := (fetchContextBroad env.broad 10).context,
          matchCount := (fetchContextBroad env.broad 10).matchCount,
          links := [],
          queries := (fetchContextPerType env.perType query slug).queries ++
            (fetchContextBroad env.broad 10).queries } := by
      simp only [retrieveContext, hslug]
      rw [if_pos hmc]
    have hctx : (retrieveContext env query).context =
        String.intercalate ("\n") (ms.map formatChunk) := by
      rw [hr, hbroad]
    refine ⟨hctx, ?_, by rw [hprompt, hctx]⟩
    rw [hr]
    show ((fetchContextPerType env.perType query slug).queries ++
        (fetchContextBroad env.broad 10).queries).filter isUnfiltered = _
    rw [List.filter_append, perType_queries_no_unfiltered, hbroad]
    simp [isUnfiltered]

/-- Witness for C5 at a concrete run: a slug is detected, all four targeted
queries succeed with zero matches, and the broad query returns one match. -/
theorem c5_fallback_broad_witness :
    (retrieveContext fallbackStrat ("hello")).context =
      String.intercalate ("\n") ([sampleMatch].map formatChunk) ∧
    (retrieveContext fallbackStrat ("hello")).queries.filter isUnfiltered =
      [{ slugFilter := none, typeFilter := none, topK := 10 }] ∧
    (generateResponse fallbackStrat ("hello")).prompt =
      systemPromptWithContext
        (String.intercalate ("\n") ([sampleMatch].map formatChunk)) :=
  c5_fallback_broad fallbackStrat ("hello") [sampleMatch]
    (Or.inr ⟨"x-card", rfl, by decide⟩) rfl rfl

/-! ## Deduplication, sorting and link-set lemmas (per-type retrieval) -/

theorem dedupByIdAux_filter (i : String) :
    ∀ (l : List VMatch) (seen : List String),
      (dedupByIdAux seen l).filter (fun x => x.id == i) =
        if i ∈ seen then [] else (l.filter (fun x => x.id == i)).take 1 := by
  intro l
  induction l with
  | nil => intro seen; simp [dedupByIdAux]
  | cons m rest ih =>
      intro seen
      rw [dedupByIdAux]
      by_cases hm : m.id ∈ seen
      · rw [if_pos (by simpa using hm), ih seen]
        by_cases hid : m.id = i
        · have hi : i ∈ seen := hid ▸ hm
          simp [hi]
        · have hpm : (m.id == i) = false := beq_eq_false_iff_ne.mpr hid
          simp [List.filter_cons, hpm]
      · rw [if_neg (by simpa using hm)]
        by_cases hid : m.id = i
        · subst hid
          have hmem : m.id ∈ seen ++ [m.id] := by simp
          simp [List.filter_cons, ih (seen ++ [m.id]), hmem, hm]
        · have hpm : (m.id == i) = false := beq_eq_false_iff_ne.mpr hid
          have hid2 : ¬ i = m.id := fun h => hid h.symm
          simp [List.filter_cons, hpm, ih (seen ++ [m.id]), hid2]

theorem dedupById_filter (ms : List VMatch) (i : String) :
    (dedupById ms).filter (fun x => x.id == i) =
      (ms.filter (fun x => x.id == i)).take 1 := by
  rw [dedupById, dedupByIdAux_filter]
  simp

theorem filter_take_one_of_find (p : VMatch → Bool) :
    ∀ (l : List VMatch) (m : VMatch),
      l.find? p = some m → (l.filter p).take 1 = [m] := by
  intro l
  induction l with
  | nil => intro m h; simp at h
  | cons a rest ih =>
      intro m h
      by_cases hp : p a
      · simp [List.find?_cons, hp] at h
        subst h
        simp [List.filter_cons, hp]
      · simp [List.find?_cons, hp] at h
        simp [List.filter_cons, hp, ih m h]

theorem insertByScore_perm (m : VMatch) (l : List VMatch) :
    (insertByScore m l).Perm (m :: l) := by
  induction l with
  | nil => exact List.Perm.refl _
  | cons x xs ih =>
      rw [insertByScore]
      by_cases h : x.score ≤ m.score
      · rw [if_pos h]
      · rw [if_neg h]
        exact (List.Perm.cons x ih).trans (List.Perm.swap m x xs)

theorem sortByScoreDesc_perm (l : List VMatch) : (sortByScoreDesc l).Perm l := by
  induction l with
  | nil => exact List.Perm.refl _
  | cons m rest ih =>
      rw [sortByScoreDesc]
      exact (insertByScore_perm m _).trans (List.Perm.cons m ih)

theorem insertByScore_sorted (m : VMatch) :
    ∀ l : List VMatch,
      List.Pairwise (fun a b => b.score ≤ a.score) l →
      List.Pairwise (fun a b => b.score ≤ a.score) (insertByScore m l) := by
  intro l
  induction l with
  | nil => intro _; simp [insertByScore]
  | cons x xs ih =>
      intro h
      rcases List.pairwise_cons.mp h with ⟨hx, hxs⟩
      rw [insertByScore]
      by_cases hxm : x.score ≤ m.score
      · rw [if_pos hxm]
        refine List.pairwise_cons.mpr ⟨?_, h⟩
        intro y hy
        rcases List.mem_cons.mp hy with rfl | hy
        · exact hxm
        · exact le_trans (hx y hy) hxm
      · rw [if_neg hxm]
        refine List.pairwise_cons.mpr ⟨?_, ih hxs⟩
        intro y hy
        rcases List.mem_cons.mp ((insertByScore_perm m xs).mem_iff.mp hy) with rfl | hy
        · exact le_of_lt (lt_of_not_le hxm)
        · exact hx y hy

theorem sortByScoreDesc_sorted (l : List VMatch) :
    List.Pairwise (fun a b => b.score ≤ a.score) (sortByScoreDesc l) := by
  induction l with
  | nil => simp [sortByScoreDesc]
  | cons m rest ih =>
      rw [sortByScoreDesc]
      exact insertByScore_sorted m _ ih

theorem insertUrl_nodup (acc : List String) (u : Option String) (h : acc.Nodup) :
    (insertUrl acc u).Nodup := by
  cases u with
  | none => exact h
  | some url =>
      rw [insertUrl]
      by_cases hc : acc.contains url = true
      · rw [if_pos hc]; exact h
      · rw [if_neg hc]
        refine List.Nodup.append h (List.nodup_singleton url) ?_
        intro a ha hb
        rw [List.mem_singleton] at hb
        subst hb
        exact absurd ha (by simpa using hc)

theorem collectLinks_nodup (ms : List VMatch) :
    ∀ acc : List String, acc.Nodup → (collectLinks ms acc).Nodup := by
  induction ms with
  | nil => intro acc h; exact h
  | cons m rest ih =>
      intro acc h
      exact ih (insertUrl acc m.url) (insertUrl_nodup acc m.url h)

theorem perTypeGather_nodup (env : PerTypeEnv) (types : List String) :
    (perTypeGather env types).2.Nodup := by
  have key : ∀ (ts : List String) (acc : List VMatch × List String), acc.2.Nodup →
      (ts.foldl
        (fun (acc : List VMatch × List String) t =>
          match perTypeLookup env t with
          | .ok ms => (acc.1 ++ ms, collectLinks ms acc.2)
          | .error _ => acc)
        acc).2.Nodup := by
    intro ts
    induction ts with
    | nil => intro acc h; exact h
    | cons t ts ih =>
        intro acc h
        rw [List.foldl_cons]
        cases hl : perTypeLookup env t with
        | ok ms => exact ih _ (collectLinks_nodup ms acc.2 h)
        | error e => exact ih _ h
  exact key types ([], []) List.nodup_nil

/-- C6: in per-type retrieval, when several category queries return matches
with the same chunk id, the retained match list contains that id exactly
once — specifically the first occurrence found — is ordered by similarity
score descending, the collected links list holds each distinct URL exactly
once, and the assembled context string is exactly the formatted blocks of
the retained matches followed by the links summary. -/
theorem c6_dedup_sort_links (env : PerTypeEnv) (query slug i : String) (m : VMatch)
    (h0 : env.embed = none)
    (hfind : (perTypeGather env (chunkTypesFor query)).1.find? (fun x => x.id == i)
      = some m)
    (_hdup : 2 ≤ ((perTypeGather env (chunkTypesFor query)).1.filter
      (fun x => x.id == i)).length) :
    (sortByScoreDesc (dedupById (perTypeGather env (chunkTypesFor query)).1)).filter
        (fun x => x.id == i) = [m] ∧
    List.Pairwise (fun a b => b.score ≤ a.score)
      (sortByScoreDesc (dedupById (perTypeGather env (chunkTypesFor query)).1)) ∧
    (perTypeGather env (chunkTypesFor query)).2.Nodup ∧
    (fetchContextPerType env query slug).context =
      String.intercalate ("\n")
        ((sortByScoreDesc (dedupById (perTypeGather env (chunkTypesFor query)).1)).map
            formatMatch ++
          (if (perTypeGather env (chunkTypesFor query)).2.isEmpty then []
           else [linksBlock (perTypeGather env (chunkTypesFor query)).2])) := by
  refine ⟨?_, sortByScoreDesc_sorted _, perTypeGather_nodup env _, ?_⟩
  · have hperm := (sortByScoreDesc_perm
      (dedupById (perTypeGather env (chunkTypesFor query)).1)).filter
      (fun x => x.id == i)
    rw [dedupById_filter, filter_take_one_of_find _ _ m hfind] at hperm
    exact List.perm_singleton.mp hperm
  · simp only [fetchContextPerType, h0]

/-- Witness for C6 at a concrete run with two categories returning the same
chunk id `c1`. -/
theorem c6_dedup_sort_links_witness :
    (sortByScoreDesc (dedupById (perTypeGather dupPerType (chunkTypesFor ("hello"))).1)).filter
        (fun x => x.id == ("c1")) = [dupMatchHigh] ∧
    List.Pairwise (fun a b => b.score ≤ a.score)
      (sortByScoreDesc (dedupById (perTypeGather dupPerType (chunkTypesFor ("hello"))).1)) ∧
    (perTypeGather dupPerType (chunkTypesFor ("hello"))).2.Nodup ∧
    (fetchContextPerType dupPerType ("hello") ("x-card")).context =
      String.intercalate ("\n")
        ((sortByScoreDesc (dedupById (perTypeGather dupPerType (chunkTypesFor ("hello"))).1)).map
            formatMatch ++
          (if (perTypeGather dupPerType (chunkTypesFor ("hello"))).2.isEmpty then []
           else [linksBlock (perTypeGather dupPerType (chunkTypesFor ("hello"))).2])) :=
  c6_dedup_sort_links dupPerType ("hello") ("x-card") ("c1") dupMatchHigh
    rfl (by decide) (by decide)

/-! ## Save-filter lemmas (C10) -/

theorem string_data_append (a b : String) : (a ++ b).data = a.data ++ b.data := rfl

theorem charsPre_append (p r : List Char) : charsPre p (p ++ r) = true := by
  induction p with
  | nil => rfl
  | cons a as ih => simp [charsPre, ih]

theorem charsPre_iff (p : List Char) : ∀ l, charsPre p l = true ↔ ∃ r, l = p ++ r := by
  induction p with
  | nil => intro l; simp [charsPre]
  | cons a as ih =>
      intro l
      cases l with
      | nil => simp [charsPre]
      | cons b bs =>
          rw [charsPre]
          constructor
          · intro h
            have h2 : a = b ∧ charsPre as bs = true := by simpa using h
            obtain ⟨hab, hpre⟩ := h2
            obtain ⟨r, hr⟩ := (ih bs).mp hpre
            subst hab
            exact ⟨r, by rw [List.cons_append, hr]⟩
          · rintro ⟨r, hr⟩
            rw [List.cons_append] at hr
            obtain ⟨hb, hbs⟩ := List.cons.inj hr
            subst hb
            simp only [beq_self_eq_true, Bool.true_and]
            exact (ih bs).mpr ⟨r, hbs⟩

theorem replaceFirstAux_self_append (p r : List Char) :
    replaceFirstAux p (p ++ r) = r := by
  cases p with
  | nil =>
      cases r with
      | nil => rfl
      | cons c cs => simp [replaceFirstAux, charsPre]
  | cons a as =>
      show replaceFirstAux (a :: as) (a :: (as ++ r)) = r
      have hc : charsPre (a :: as) (a :: (as ++ r)) = true := charsPre_append (a :: as) r
      rw [replaceFirstAux, if_pos hc]
      show (a :: (as ++ r)).drop (as.length + 1) = r
      rw [List.drop_succ_cons, List.drop_left]

theorem mem_replaceFirstAux (c : Char) (p : List Char) (hcp : c ∉ p) :
    ∀ l, c ∈ l → c ∈ replaceFirstAux p l := by
  intro l
  induction l with
  | nil => intro h; simp at h
  | cons d rest ih =>
      intro hmem
      rw [replaceFirstAux]
      by_cases hpre : charsPre p (d :: rest) = true
      · rw [if_pos hpre]
        obtain ⟨r, hr⟩ := (charsPre_iff p (d :: rest)).mp hpre
        rw [hr, List.drop_left]
        rw [hr] at hmem
        rcases List.mem_append.mp hmem with h | h
        · exact absurd h hcp
        · exact h
      · rw [if_neg hpre]
        rcases List.mem_cons.mp hmem with rfl | h
        · exact List.mem_cons_self _ _
        · exact List.mem_cons_of_mem _ (ih h)

theorem containsLBrace_replaceFirst (s pat : String) (h : containsLBrace s = true)
    (hp : lbrace ∉ pat.data) : containsLBrace (replaceFirst s pat) = true := by
  rw [containsLBrace] at h ⊢
  have hmem := mem_replaceFirstAux lbrace pat.data hp s.data (by simpa using h)
  simpa using hmem

theorem containsLBrace_append_nl (s : String) (h : containsLBrace s = true) :
    containsLBrace (s ++ "\n\n") = true := by
  rw [containsLBrace] at h ⊢
  rw [string_data_append]
  have hmem : lbrace ∈ s.data := by simpa using h
  simpa using List.mem_append_left (("\n\n").data) hmem

theorem charsPre_dataFrame (s : String) :
    charsPre ("data: ").data (dataFrame s).data = true :=
  charsPre_append ("data: ").data (s.data ++ ("\n\n").data)

theorem extract_dataFrame (s : String) :
    extractContent (dataFrame s) = replaceFirst (s ++ "\n\n") ("\n\n") := by
  have h1 : replaceFirst (dataFrame s) ("data: ") = s ++ "\n\n" := by
    show String.mk (replaceFirstAux (("data: ").data) ((dataFrame s).data)) = s ++ "\n\n"
    rw [show replaceFirstAux (("data: ").data) ((dataFrame s).data) = (s ++ "\n\n").data from
      replaceFirstAux_self_append ("data: ").data (s.data ++ ("\n\n").data)]
  rw [extractContent, h1]

theorem keepContent_false_of_lbrace (content : String)
    (h : containsLBrace content = true) : keepContent content = false := by
  rw [keepContent, h]
  simp

theorem foldl_accumStep_filter : ∀ (frames : List String) (acc : String),
    frames.foldl accumStep acc =
      (frames.filter (fun f => charsPre ("data: ").data f.data)).foldl accumStep acc := by
  intro frames
  induction frames with
  | nil => intro acc; rfl
  | cons f fr ih =>
      intro acc
      by_cases hf : charsPre ("data: ").data f.data = true
      · rw [List.foldl_cons, List.filter_cons, if_pos hf, List.foldl_cons, ih]
      · have hstep : accumStep acc f = acc := by
          rw [accumStep, if_neg hf]
        rw [List.foldl_cons, hstep, List.filter_cons, if_neg hf, ih]

/-- C10 (implicit): the assistant text accumulated for persistence (in the
orchestrator, and by the identical code in the non-streaming route handler)
is built only from frames that start with the literal `data: ` prefix; a
data frame whose extracted payload fails the save filter (it starts with
`[`, contains `{`, or equals a strategy-name token) contributes nothing to
the accumulated text; consequently a genuine model chunk containing a `{`
is streamed to the client as a data frame yet the persisted `ai` message
drops it (here: it is the only chunk, so nothing is persisted at all). -/
theorem c10_save_filter
    (frames l r : List String) (chunk s message : String)
    (env : OrchEnv) (mem : List Msg)
    (hc1 : charsPre ("data: ").data chunk.data = true)
    (hc2 : keepContent (extractContent chunk) = false)
    (h1 : env.addUserFails = false)
    (h2 : env.historyResult = Except.ok mem)
    (h3 : env.constructFails = false)
    (h4 : env.strat.createErr = none)
    (h5 : env.strat.streamErr = none)
    (h6 : env.strat.chunks = [some s])
    (h7 : s ≠ "")
    (h8 : containsLBrace s = true) :
    accumulate frames =
      accumulate (frames.filter (fun f => charsPre ("data: ").data f.data)) ∧
    accumulate (l ++ chunk :: r) = accumulate (l ++ r) ∧
    dataFrame s ∈ (processMessage message env).frames ∧
    (processMessage message env).savedAi = none := by
  have hgen : (generateResponse env.strat message).frames =
      [callToFrame, strategyNameFrame, dataFrame s, doneFrame] := by
    simp only [generateResponse, h4, h5, h6]
    simp [streamFrames, h7]
  have hframes := processMessage_frames_eq message env mem h1 h2 h3
  have hk : keepContent (extractContent (dataFrame s)) = false := by
    rw [extract_dataFrame]
    exact keepContent_false_of_lbrace _
      (containsLBrace_replaceFirst _ _ (containsLBrace_append_nl s h8) (by decide))
  have hstep3 : accumStep "" (dataFrame s) = "" := by
    rw [accumStep, if_pos (charsPre_dataFrame s)]
    simp [hk]
  have hacc : accumulate [callToFrame, strategyNameFrame, dataFrame s, doneFrame] = "" := by
    have e1 : accumStep "" callToFrame = "" := by decide
    have e2 : accumStep "" strategyNameFrame = "" := by decide
    have e4 : accumStep "" doneFrame = "" := by decide
    rw [accumulate, List.foldl_cons, e1, List.foldl_cons, e2, List.foldl_cons, hstep3,
      List.foldl_cons, e4, List.foldl_nil]
  have hfull : accumulate (generateResponse env.strat message).frames = "" := by
    rw [hgen]
    exact hacc
  have hstepc : accumStep (List.foldl accumStep ("") l) chunk = List.foldl accumStep ("") l := by
    rw [accumStep, if_pos hc1]
    simp [hc2]
  refine ⟨foldl_accumStep_filter frames (""), ?_, ?_, ?_⟩
  · calc accumulate (l ++ chunk :: r)
        = List.foldl accumStep (accumStep (List.foldl accumStep ("") l) chunk) r := by
          rw [accumulate, List.foldl_append, List.foldl_cons]
      _ = List.foldl accumStep (List.foldl accumStep ("") l) r := by rw [hstepc]
      _ = accumulate (l ++ r) := by rw [accumulate, List.foldl_append]
  · rw [hframes, hgen]
    simp
  · rw [processMessage, h1, h2, h3]
    simp only [Bool.false_eq_true, if_false]
    split
    · rfl
    · rename_i hcond
      exact absurd hfull hcond

/-- Witness for C10 at concrete values: the excluded chunk is the
strategy-name frame, and the streamed-but-dropped model chunk is a small
JSON object. -/
theorem c10_save_filter_witness :
    accumulate [dataFrame ("x"), callToFrame] =
      accumulate ([dataFrame ("x"), callToFrame].filter
        (fun f => charsPre ("data: ").data f.data)) ∧
    accumulate ([dataFrame ("x")] ++ dataFrame ("STANDARD_STRATEGY") :: [doneFrame]) =
      accumulate ([dataFrame ("x")] ++ [doneFrame]) ∧
    dataFrame bracedChunk ∈
      (processMessage ("hi") (mkOrch (mkStrat [some bracedChunk] none) false)).frames ∧
    (processMessage ("hi") (mkOrch (mkStrat [some bracedChunk] none) false)).savedAi = none :=
  c10_save_filter [dataFrame ("x"), callToFrame] [dataFrame ("x")] [doneFrame]
    (dataFrame ("STANDARD_STRATEGY")) bracedChunk ("hi")
    (mkOrch (mkStrat [some bracedChunk] none) false)
    [{ sender := "user", content := "hi" }]
    (by decide) (by decide) rfl rfl rfl rfl rfl rfl (by decide) (by decide)

end Spur
